import Mathlib

/-!
# Verification of the remote-control client protocol layer

A shallow embedding of `src/remote_control_client.py` (class
`RemoteControlClient`): the JSON-over-HTTP transport, the per-operation
request builders and envelope interpretation, and the file-transfer
operations with their base64 encode/decode step.

Modelling conventions:
* A wire request is a record of the action tag and its optional payload
  fields; a wire response is a record of the envelope's optional fields
  (`response.get(k)` in Python becomes an `Option` field here, with
  `Option.getD` for `response.get(k, default)`).
* Python exceptions become `Except ClientError`; the distinct Python
  exception classes (`ConnectionError`, `ValueError`, `RuntimeError`,
  `FileNotFoundError`) become the constructors of `ClientError`.
* The network is a parameter `net : Request → NetOutcome` giving, for each
  issued request, what `urllib.request.urlopen` + `json.loads` yield:
  a `URLError` (with or without a `socket.error` reason — timeouts included),
  a JSON decode failure, or a decoded body.  Each operation returns the
  list of requests it actually issued alongside its result, so "no request
  reaches the transport" is the issued list being `[]`.
* Bytes are `List Nat` with elements `< 256`; the local filesystem effects
  of `download_file` are reified as a list of `FsAction`s.
-/

namespace RemoteControl

/-- A wire request: the `action` tag and the optional payload fields used by
the client's actions (§4.2 of the protocol).  `working_directory` is listed
because the MCP server's `shell_start` tool declares it; the client never
sets it. -/
structure Request where
  action : String
  url : Option String := none
  input : Option String := none
  path : Option String := none
  content : Option String := none
  pattern : Option String := none
  working_directory : Option String := none
deriving DecidableEq, Repr

/-- A decoded response envelope: the fields the modelled operations read.
Absent fields are `none`, mirroring `dict.get`. -/
structure Response where
  success : Option Bool := none
  error : Option String := none
  content : Option String := none
  running : Option Bool := none
  output : Option String := none
deriving DecidableEq, Repr

/-- The Python exception classes the client raises, with their messages. -/
inductive ClientError where
  | connectionError (msg : String)
  | valueError (msg : String)
  | runtimeError (msg : String)
  | fileNotFoundError (msg : String)
deriving DecidableEq, Repr

deriving instance DecidableEq for Except

/-- Python's `str.strip()`: the string with leading and trailing whitespace
removed (modelled over the character list, so it evaluates by kernel
reduction). -/
def pyStrip (s : String) : String :=
  String.mk (((s.toList.dropWhile Char.isWhitespace).reverse.dropWhile
    Char.isWhitespace).reverse)

/-- What the HTTP POST + JSON decode can yield inside `_make_request`'s
`try` block: a `urllib.error.URLError` (whose `reason` may or may not be a
`socket.error`; connect failures and timeouts carry a `socket.error`
reason), a `json.JSONDecodeError` on a non-JSON body, or a decoded body. -/
inductive NetOutcome where
  | urlError (reasonIsSocketError : Bool) (errStr : String)
  | invalidJson (errStr : String)
  | ok (body : Response)
deriving DecidableEq, Repr

/-- `RemoteControlClient._make_request` (lines 33–67): classifies transport
failures and returns the decoded dictionary unchanged on success. -/
def make_request (host : String) (port : Nat) : NetOutcome → Except ClientError Response
  | .urlError true _ =>
      .error (.connectionError ("Unable to connect to " ++ host ++ ":" ++ toString port))
  | .urlError false e =>
      .error (.connectionError ("HTTP request failed: " ++ e))
  | .invalidJson e =>
      .error (.valueError ("Invalid JSON response from server: " ++ e))
  | .ok body => .ok body

/-- What the local path names on the local filesystem when `upload_file`
inspects it: missing, a non-file (directory), or a file with byte content. -/
inductive FsEntry where
  | absent
  | dir
  | file (content : List Nat)
deriving DecidableEq, Repr

/-- The local filesystem writes `download_file` can perform. -/
inductive FsAction where
  | makedirs (d : String)
  | writeFile (p : String) (bytes : List Nat)
deriving DecidableEq, Repr

/-! ## Base64 (Python `base64.b64encode` / `b64decode`, standard alphabet) -/

/-- The standard base64 alphabet, index `v` being the character for the
sextet value `v`. -/
def b64Alphabet : List Char :=
  "ABCDEFGHIJKLMNOPQRSTUVWXYZabcdefghijklmnopqrstuvwxyz0123456789+/".toList

/-- Sextet value to base64 character. -/
def toB64Char (v : Nat) : Char := b64Alphabet.getD v '?'

/-- Base64 character back to its sextet value. -/
def fromB64Char (c : Char) : Nat := b64Alphabet.indexOf c

/-- Bytes to sextets: each 3-byte group becomes 4 sextets; a 2-byte tail
becomes 3 sextets and a 1-byte tail becomes 2 (bit layout per RFC 4648). -/
def toSextets : List Nat → List Nat
  | a :: b :: c :: rest =>
      (a / 4) :: ((a % 4) * 16 + b / 16) :: ((b % 16) * 4 + c / 64) :: (c % 64) :: toSextets rest
  | [a, b] => [a / 4, (a % 4) * 16 + b / 16]  ++ [(b % 16) * 4]
  | [a] => [a / 4, (a % 4) * 16]
  | [] => []

/-- Sextets back to bytes, inverse bit layout of `toSextets`. -/
def fromSextets : List Nat → List Nat
  | s0 :: s1 :: s2 :: s3 :: rest =>
      (s0 * 4 + s1 / 16) :: ((s1 % 16) * 16 + s2 / 4) :: ((s2 % 4) * 64 + s3) :: fromSextets rest
  | [s0, s1, s2] => [s0 * 4 + s1 / 16, (s1 % 16) * 16 + s2 / 4]
  | [s0, s1] => [s0 * 4 + s1 / 16]
  | _ => []

/-- Number of `=` padding characters `b64encode` appends. -/
def b64PadCount (n : Nat) : Nat := (3 - n % 3) % 3

/-- `base64.b64encode` on a byte list, as the ASCII string the client puts
in the `content` field. -/
def b64encode (bs : List Nat) : String :=
  String.mk ((toSextets bs).map toB64Char ++ List.replicate (b64PadCount bs.length) '=')

/-- `base64.b64decode` on a well-formed base64 string: drop padding, map
characters to sextets, repack into bytes.  Total where Python would raise
`binascii.Error` on malformed input; the operations modelled here only
apply it to well-formed content. -/
def b64decode (s : String) : List Nat :=
  fromSextets ((s.toList.filter (· ≠ '=')).map fromB64Char)

/-! ## Client operations

Each operation mirrors one `RemoteControlClient` method.  The Python
pattern is uniform: build the action dict, call `_make_request` inside a
`try`, return on a truthy `success`, otherwise `raise RuntimeError(f"Server
error: {error_msg}")`; the trailing `except (ConnectionError, ValueError):
raise` re-raises transport errors unchanged, while `except Exception as e:
raise RuntimeError(f"<op> failed: {e}")` catches the just-raised
`RuntimeError` and re-wraps it — so the message a caller sees is
`"Request failed: Server error: …"` (resp. `"Upload failed: …"`,
`"Download failed: …"`).  Each operation returns the list of requests it
issued together with its result. -/

/-- `RemoteControlClient.launch_browser` (lines 69–104). -/
def launch_browser (host : String) (port : Nat) (url : String)
    (net : Request → NetOutcome) : List Request × Except ClientError Bool :=
  if url = "" || pyStrip url = "" then
    ([], .error (.valueError "URL cannot be empty"))
  else
    let req : Request := { action := "launch_browser", url := some (pyStrip url) }
    ([req],
      match make_request host port (net req) with
      | .error e => .error e
      | .ok r =>
          if r.success = some true then .ok true
          else .error (.runtimeError
            ("Request failed: Server error: " ++ r.error.getD "Unknown error")))

/-- The outcome of `socket.connect_ex` inside `test_connection`: either the
integer error code it returned, or an exception it raised. -/
inductive ConnectAttempt where
  | code (n : Int)
  | exn (msg : String)
deriving DecidableEq, Repr

/-- `RemoteControlClient.test_connection` (lines 106–120): true exactly when
`connect_ex` returned 0; any exception yields `false`.  Total — never
raises. -/
def test_connection : ConnectAttempt → Bool
  | .code n => n == 0
  | .exn _ => false

/-- The dictionary `get_status` returns. -/
structure Status where
  host : String
  port : Nat
  connected : Bool
  url : String
deriving DecidableEq, Repr

/-- The `base_url` computed in `__init__`. -/
def base_url (host : String) (port : Nat) : String :=
  "http://" ++ host ++ ":" ++ toString port ++ "/"

/-- `RemoteControlClient.get_status` (lines 122–135).  Total — never
raises. -/
def get_status (host : String) (port : Nat) (a : ConnectAttempt) : Status :=
  { host := host, port := port, connected := test_connection a
    url := base_url host port }

/-- `RemoteControlClient.start_shell` (lines 137–162).  The method takes no
working-directory parameter; the request it issues is the bare
`{"action": "shell_start"}`. -/
def start_shell (host : String) (port : Nat)
    (net : Request → NetOutcome) : List Request × Except ClientError Bool :=
  let req : Request := { action := "shell_start" }
  ([req],
    match make_request host port (net req) with
    | .error e => .error e
    | .ok r =>
        if r.success = some true then .ok true
        else .error (.runtimeError
          ("Request failed: Server error: " ++ r.error.getD "Unknown error")))

/-- `RemoteControlClient.send_shell_input` (lines 164–199). -/
def send_shell_input (host : String) (port : Nat) (command : String)
    (net : Request → NetOutcome) : List Request × Except ClientError Bool :=
  if command = "" || pyStrip command = "" then
    ([], .error (.valueError "Command cannot be empty"))
  else
    let req : Request := { action := "shell_input", input := some (pyStrip command) }
    ([req],
      match make_request host port (net req) with
      | .error e => .error e
      | .ok r =>
          if r.success = some true then .ok true
          else .error (.runtimeError
            ("Request failed: Server error: " ++ r.error.getD "Unknown error")))

/-- `RemoteControlClient.get_shell_status` (lines 258–283): on success
returns `response.get("running", False)`. -/
def get_shell_status (host : String) (port : Nat)
    (net : Request → NetOutcome) : List Request × Except ClientError Bool :=
  let req : Request := { action := "shell_status" }
  ([req],
    match make_request host port (net req) with
    | .error e => .error e
    | .ok r =>
        if r.success = some true then .ok (r.running.getD false)
        else .error (.runtimeError
          ("Request failed: Server error: " ++ r.error.getD "Unknown error")))

/-- `RemoteControlClient.upload_file` (lines 285–334).  `entry` is what the
OS reports for `local_path` (`os.path.exists` / `os.path.isfile` /
`os.path.getsize` / `open(...).read()`); all three local checks happen
before any request is built. -/
def upload_file (host : String) (port : Nat) (local_path : String)
    (entry : FsEntry) (remote_path : String)
    (net : Request → NetOutcome) : List Request × Except ClientError Bool :=
  match entry with
  | .absent => ([], .error (.fileNotFoundError ("Local file not found: " ++ local_path)))
  | .dir => ([], .error (.valueError ("Path is not a file: " ++ local_path)))
  | .file content =>
      if content.length > 100 * 1024 * 1024 then
        ([], .error (.valueError
          ("File too large: " ++ toString content.length ++ " bytes. Maximum size is 100MB")))
      else
        let file_content := b64encode content
        let req : Request :=
          { action := "file_upload", path := some remote_path, content := some file_content }
        ([req],
          match make_request host port (net req) with
          | .error e => .error e
          | .ok r =>
              if r.success = some true then .ok true
              else .error (.runtimeError
                ("Upload failed: Server error: " ++ r.error.getD "Unknown error")))

/-- `RemoteControlClient.download_file` (lines 336–383).  `localDir` is
`os.path.dirname(local_path)` and `dirExists` is `os.path.exists(localDir)`
at call time; the writes it performs are returned as `FsAction`s.  An empty
or absent `content` on a successful envelope raises
`RuntimeError("No file content received")`, which the method's own
`except Exception` re-wraps into `"Download failed: No file content
received"` — with no filesystem action performed. -/
def download_file (host : String) (port : Nat) (remote_path local_path : String)
    (localDir : String) (dirExists : Bool)
    (net : Request → NetOutcome) : List Request × List FsAction × Except ClientError Bool :=
  let req : Request := { action := "file_download", path := some remote_path }
  ([req],
    match make_request host port (net req) with
    | .error e => ([], .error e)
    | .ok r =>
        if r.success = some true then
          let file_content := r.content.getD ""
          if file_content = "" then
            ([], .error (.runtimeError "Download failed: No file content received"))
          else
            let file_bytes := b64decode file_content
            let mk := if localDir ≠ "" && !dirExists then [FsAction.makedirs localDir] else []
            (mk ++ [FsAction.writeFile local_path file_bytes], .ok true)
        else
          ([], .error (.runtimeError
            ("Download failed: Server error: " ++ r.error.getD "Unknown error"))))

/-! ## Round-trip composition (claimed agent model)

The round-trip law is stated against an agent that stores the
base64-decoded upload content and returns it base64-encoded on download,
answering `success=true` to both actions. -/

/-- What such an agent stores after the upload: the base64-decode of the
`content` field of the single issued `file_upload` request. -/
def agentStore (upReqs : List Request) : List Nat :=
  match upReqs with
  | [req] => b64decode (req.content.getD "")
  | _ => []

/-- `upload_file` then `download_file` against the storing agent: the pair
of (upload requests, upload result) and (download requests, filesystem
actions, download result). -/
def roundTrip (host : String) (port : Nat) (content : List Nat)
    (local_path remote_path new_local new_local_dir : String) (dirExists : Bool) :
    (List Request × Except ClientError Bool) ×
      (List Request × List FsAction × Except ClientError Bool) :=
  let up := upload_file host port local_path (.file content) remote_path
    (fun _ => .ok { success := some true })
  let stored := agentStore up.1
  let down := download_file host port remote_path new_local new_local_dir dirExists
    (fun _ => .ok { success := some true, content := some (b64encode stored) })
  (up, down)

/-! ## Substring occurrence (for failure-message diagnostics) -/

/-- `needle` begins `hay` (character lists). -/
def beginsWith : List Char → List Char → Bool
  | [], _ => true
  | _ :: _, [] => false
  | a :: as, b :: bs => a == b && beginsWith as bs

/-- `needle` occurs contiguously somewhere in `hay`. -/
def occursIn (needle : List Char) : List Char → Bool
  | [] => needle.isEmpty
  | c :: cs => beginsWith needle (c :: cs) || occursIn needle cs

/-- `needle` is a contiguous substring of `hay`. -/
def occursStr (needle hay : String) : Bool := occursIn needle.toList hay.toList

/-! ## Base64 round-trip lemmas -/

/-- Every sextet produced from bytes is below 64. -/
theorem toSextets_lt : ∀ (bs : List Nat), (∀ x ∈ bs, x < 256) →
    ∀ s ∈ toSextets bs, s < 64
  | [], _ => by simp [toSextets]
  | [a], h => by
      have ha := h a (by simp)
      simp [toSextets]
      omega
  | [a, b], h => by
      have ha := h a (by simp)
      have hb := h b (by simp)
      simp [toSextets]
      omega
  | a :: b :: c :: rest, h => by
      have ha := h a (by simp)
      have hb := h b (by simp)
      have hc := h c (by simp)
      have ih := toSextets_lt rest (fun x hx => h x (by simp [hx]))
      intro s hs
      simp only [toSextets, List.mem_cons] at hs
      rcases hs with rfl | rfl | rfl | rfl | hs
      · omega
      · omega
      · omega
      · omega
      · exact ih s hs

/-- Unpacking sextets inverts packing, for genuine bytes. -/
theorem fromSextets_toSextets : ∀ (bs : List Nat), (∀ x ∈ bs, x < 256) →
    fromSextets (toSextets bs) = bs
  | [], _ => rfl
  | [a], h => by
      have ha := h a (by simp)
      simp [toSextets, fromSextets]
      omega
  | [a, b], h => by
      have ha := h a (by simp)
      have hb := h b (by simp)
      simp [toSextets, fromSextets]
      constructor <;> omega
  | a :: b :: c :: rest, h => by
      have ha := h a (by simp)
      have hb := h b (by simp)
      have hc := h c (by simp)
      have ih := fromSextets_toSextets rest (fun x hx => h x (by simp [hx]))
      simp only [toSextets, fromSextets, ih, List.cons.injEq, and_true]
      omega

/-- The alphabet decodes its own characters. -/
theorem fromB64Char_toB64Char : ∀ v, v < 64 → fromB64Char (toB64Char v) = v := by
  decide

/-- No alphabet character is the padding character. -/
theorem toB64Char_ne_pad : ∀ v, v < 64 → toB64Char v ≠ '=' := by
  decide

/-- Nonempty bytes produce at least one sextet. -/
theorem toSextets_ne_nil : ∀ (bs : List Nat), bs ≠ [] → toSextets bs ≠ []
  | [], h => absurd rfl h
  | [_], _ => by simp [toSextets]
  | [_, _], _ => by simp [toSextets]
  | _ :: _ :: _ :: _, _ => by simp [toSextets]

/-- `b64decode` inverts `b64encode` on byte lists. -/
theorem b64decode_b64encode (bs : List Nat) (h : ∀ x ∈ bs, x < 256) :
    b64decode (b64encode bs) = bs := by
  have hchars : ∀ c ∈ (toSextets bs).map toB64Char, c ≠ '=' := by
    intro c hc
    rcases List.mem_map.mp hc with ⟨s, hs, rfl⟩
    exact toB64Char_ne_pad s (toSextets_lt bs h s hs)
  have htolist : (b64encode bs).toList =
      (toSextets bs).map toB64Char ++ List.replicate (b64PadCount bs.length) '=' := rfl
  unfold b64decode
  rw [htolist, List.filter_append]
  have h1 : ((toSextets bs).map toB64Char).filter (· ≠ '=') =
      (toSextets bs).map toB64Char := by
    apply List.filter_eq_self.mpr
    intro c hc
    simpa using hchars c hc
  have h2 : (List.replicate (b64PadCount bs.length) '=').filter (· ≠ '=') = [] := by
    apply List.filter_eq_nil_iff.mpr
    intro c hc
    simp [List.eq_of_mem_replicate hc]
  rw [h1, h2, List.append_nil, List.map_map]
  have h3 : (toSextets bs).map (fromB64Char ∘ toB64Char) = toSextets bs := by
    conv_rhs => rw [← List.map_id (toSextets bs)]
    apply List.map_congr_left
    intro s hs
    exact fromB64Char_toB64Char s (toSextets_lt bs h s hs)
  rw [h3]
  exact fromSextets_toSextets bs h

/-- Encoding a nonempty byte list never yields the empty string. -/
theorem b64encode_ne_empty (bs : List Nat) (h : bs ≠ []) : b64encode bs ≠ "" := by
  unfold b64encode
  intro hcontra
  have hdata : (toSextets bs).map toB64Char ++
      List.replicate (b64PadCount bs.length) '=' = [] := congrArg String.data hcontra
  rcases List.append_eq_nil.mp hdata with ⟨hmap, -⟩
  exact toSextets_ne_nil bs h (List.map_eq_nil_iff.mp hmap)

/-! ## Substring-occurrence lemmas -/

/-- Every character list begins with itself. -/
theorem beginsWith_refl : ∀ (n : List Char), beginsWith n n = true
  | [] => rfl
  | a :: as => by simp [beginsWith, beginsWith_refl as]

/-- Every character list occurs in itself. -/
theorem occursIn_self (n : List Char) : occursIn n n = true := by
  cases n with
  | nil => rfl
  | cons c cs => simp [occursIn, beginsWith_refl]

/-- Occurrence is preserved by prepending. -/
theorem occursIn_append_left (n : List Char) : ∀ (pre hay : List Char),
    occursIn n hay = true → occursIn n (pre ++ hay) = true
  | [], _, h => h
  | c :: cs, hay, h => by
      simp [occursIn, occursIn_append_left n cs hay h]

/-- A string occurs in any string that ends with it. -/
theorem occursStr_append_self (pre s : String) : occursStr s (pre ++ s) = true := by
  unfold occursStr
  have hl : (pre ++ s).toList = pre.toList ++ s.toList := by
    simp [String.toList, String.data_append]
  rw [hl]
  exact occursIn_append_left _ _ _ (occursIn_self _)

/-! ## Claim theorems -/

/-- C2: a local file strictly larger than 100 MiB makes `upload_file` raise
`ValueError` locally with no request issued; a missing local path raises
`FileNotFoundError` with no request issued (and a non-file path raises
`ValueError`, likewise locally). -/
theorem upload_local_validation (host : String) (port : Nat) (lp rp : String)
    (net : Request → NetOutcome) (content : List Nat) :
    (upload_file host port lp .absent rp net =
      ([], .error (.fileNotFoundError ("Local file not found: " ++ lp)))) ∧
    (upload_file host port lp .dir rp net =
      ([], .error (.valueError ("Path is not a file: " ++ lp)))) ∧
    (content.length > 100 * 1024 * 1024 →
      upload_file host port lp (.file content) rp net =
        ([], .error (.valueError ("File too large: " ++ toString content.length ++
          " bytes. Maximum size is 100MB")))) := by
  refine ⟨rfl, rfl, fun h => ?_⟩
  simp [upload_file, h]

/-- Witness for `upload_local_validation`: a file of 100 MiB + 1 zero bytes
is rejected locally, as is a missing path. -/
theorem upload_local_validation_witness :
    ((List.replicate (100 * 1024 * 1024 + 1) 0).length > 100 * 1024 * 1024) ∧
    (upload_file "localhost" 8417 "/tmp/a.bin" .absent "C:/b.bin" (fun _ => .ok {}) =
      ([], .error (.fileNotFoundError ("Local file not found: " ++ "/tmp/a.bin")))) ∧
    (upload_file "localhost" 8417 "/tmp/a.bin"
        (.file (List.replicate (100 * 1024 * 1024 + 1) 0)) "C:/b.bin" (fun _ => .ok {}) =
      ([], .error (.valueError ("File too large: " ++
        toString (List.replicate (100 * 1024 * 1024 + 1) (0 : Nat)).length ++
        " bytes. Maximum size is 100MB")))) :=
  ⟨by rw [List.length_replicate]; omega,
   (upload_local_validation "localhost" 8417 "/tmp/a.bin" "C:/b.bin" (fun _ => .ok {}) []).1,
   (upload_local_validation "localhost" 8417 "/tmp/a.bin" "C:/b.bin" (fun _ => .ok {})
     (List.replicate (100 * 1024 * 1024 + 1) 0)).2.2
       (by rw [List.length_replicate]; omega)⟩

/-- C4: the request `start_shell` issues is the bare `shell_start` action —
it carries no working-directory field at all (the client method takes no
such parameter, although `WinRemoteMcpServer._shell_start` calls it with
one). -/
theorem shell_start_request_lacks_working_directory (host : String) (port : Nat)
    (net : Request → NetOutcome) :
    (start_shell host port net).1 = [{ action := "shell_start" }] ∧
    (start_shell host port net).1.map Request.working_directory = [none] :=
  ⟨rfl, rfl⟩

/-- C5: `launch_browser` on input with nonempty strip issues exactly one
`launch_browser` request carrying the stripped URL; on empty/whitespace
input it raises `ValueError` with no request issued.  `send_shell_input`
applies the same local check to its command. -/
theorem client_side_input_validation (host : String) (port : Nat)
    (url command : String) (net : Request → NetOutcome) :
    (pyStrip url ≠ "" →
      (launch_browser host port url net).1 =
        [{ action := "launch_browser", url := some (pyStrip url) }]) ∧
    (pyStrip url = "" →
      launch_browser host port url net =
        ([], .error (.valueError "URL cannot be empty"))) ∧
    (pyStrip command ≠ "" →
      (send_shell_input host port command net).1 =
        [{ action := "shell_input", input := some (pyStrip command) }]) ∧
    (pyStrip command = "" →
      send_shell_input host port command net =
        ([], .error (.valueError "Command cannot be empty"))) := by
  refine ⟨fun h => ?_, fun h => ?_, fun h => ?_, fun h => ?_⟩
  · have hne : url ≠ "" := fun hc => h (by rw [hc]; decide)
    simp [launch_browser, hne, h]
  · simp [launch_browser, h]
  · have hne : command ≠ "" := fun hc => h (by rw [hc]; decide)
    simp [send_shell_input, hne, h]
  · simp [send_shell_input, h]

/-- Witness for `client_side_input_validation` at a padded URL, a
whitespace-only URL, a padded command and an empty command. -/
theorem client_side_input_validation_witness :
    (pyStrip "  https://example.test  " ≠ "") ∧ (pyStrip "   " = "") ∧
    (pyStrip " dir " ≠ "") ∧ (pyStrip "" = "") ∧
    ((launch_browser "localhost" 8417 "  https://example.test  " (fun _ => .ok {})).1 =
      [{ action := "launch_browser", url := some (pyStrip "  https://example.test  ") }]) ∧
    (launch_browser "localhost" 8417 "   " (fun _ => .ok {}) =
      ([], .error (.valueError "URL cannot be empty"))) ∧
    ((send_shell_input "localhost" 8417 " dir " (fun _ => .ok {})).1 =
      [{ action := "shell_input", input := some (pyStrip " dir ") }]) ∧
    (send_shell_input "localhost" 8417 "" (fun _ => .ok {}) =
      ([], .error (.valueError "Command cannot be empty"))) :=
  ⟨by decide, by decide, by decide, by decide,
   (client_side_input_validation "localhost" 8417 "  https://example.test  " " dir "
     (fun _ => .ok {})).1 (by decide),
   (client_side_input_validation "localhost" 8417 "   " " dir "
     (fun _ => .ok {})).2.1 (by decide),
   (client_side_input_validation "localhost" 8417 "   " " dir "
     (fun _ => .ok {})).2.2.1 (by decide),
   (client_side_input_validation "localhost" 8417 "   " ""
     (fun _ => .ok {})).2.2.2 (by decide)⟩

/-- C7: `_make_request` classifies failures into distinct kinds: URL errors
with a socket reason (connect failures and timeouts) become
`ConnectionError`, other URL errors become `ConnectionError` with the cause
preserved, a non-JSON body becomes `ValueError`, and a decoded body is
returned unchanged; the error kinds are pairwise distinct. -/
theorem make_request_failure_classification (host : String) (port : Nat)
    (e : String) (body : Response) :
    make_request host port (.urlError true e) =
      .error (.connectionError ("Unable to connect to " ++ host ++ ":" ++ toString port)) ∧
    make_request host port (.urlError false e) =
      .error (.connectionError ("HTTP request failed: " ++ e)) ∧
    make_request host port (.invalidJson e) =
      .error (.valueError ("Invalid JSON response from server: " ++ e)) ∧
    make_request host port (.ok body) = .ok body ∧
    (∀ m m' : String, ClientError.connectionError m ≠ ClientError.valueError m') ∧
    (∀ m m' : String, ClientError.connectionError m ≠ ClientError.runtimeError m') ∧
    (∀ m m' : String, ClientError.valueError m ≠ ClientError.runtimeError m') :=
  ⟨rfl, rfl, rfl, rfl, by simp, by simp, by simp⟩

/-- C8: when the connect attempt does not return code 0 (host unreachable,
whether by nonzero error code or by exception), `test_connection` returns
`false` and `get_status` returns the configured host, port and URL with
`connected = false`; both are total functions — they never raise. -/
theorem unreachable_host_status (host : String) (port : Nat) (a : ConnectAttempt)
    (h : a ≠ .code 0) :
    test_connection a = false ∧
    get_status host port a =
      { host := host, port := port, connected := false, url := base_url host port } := by
  have hc : test_connection a = false := by
    cases a with
    | code n =>
        have hn : n ≠ 0 := fun hcontra => h (by rw [hcontra])
        simp [test_connection, hn]
    | exn m => rfl
  exact ⟨hc, by simp [get_status, hc]⟩

/-- Witness for `unreachable_host_status`: a connection-refused exception. -/
theorem unreachable_host_status_witness :
    (ConnectAttempt.exn "connection refused" ≠ ConnectAttempt.code 0) ∧
    (test_connection (.exn "connection refused") = false ∧
      get_status "localhost" 8417 (.exn "connection refused") =
        { host := "localhost", port := 8417, connected := false
          url := base_url "localhost" 8417 }) :=
  ⟨by decide, unreachable_host_status "localhost" 8417 (.exn "connection refused") (by decide)⟩

/-- C10: the upload size check is strictly greater-than: a file of at most
(in particular, exactly) 100 * 1024 * 1024 bytes is accepted and its
`file_upload` request transmitted; a strictly larger one is rejected with
no request issued. -/
theorem upload_size_boundary (host : String) (port : Nat) (lp rp : String)
    (net : Request → NetOutcome) (content : List Nat) :
    (content.length ≤ 100 * 1024 * 1024 →
      (upload_file host port lp (.file content) rp net).1 =
        [{ action := "file_upload", path := some rp, content := some (b64encode content) }]) ∧
    (content.length > 100 * 1024 * 1024 →
      (upload_file host port lp (.file content) rp net).1 = []) := by
  constructor
  · intro h
    have hgt : ¬ content.length > 100 * 1024 * 1024 := by omega
    simp [upload_file, hgt]
  · intro h
    simp [upload_file, h]

/-- Witness for `upload_size_boundary`: a file of exactly 100 MiB is
transmitted; one byte more is rejected. -/
theorem upload_size_boundary_witness :
    ((List.replicate (100 * 1024 * 1024) 0).length ≤ 100 * 1024 * 1024) ∧
    ((List.replicate (100 * 1024 * 1024 + 1) 0).length > 100 * 1024 * 1024) ∧
    ((upload_file "localhost" 8417 "/tmp/a.bin"
        (.file (List.replicate (100 * 1024 * 1024) 0)) "C:/b.bin" (fun _ => .ok {})).1 =
      [{ action := "file_upload", path := some "C:/b.bin"
         content := some (b64encode (List.replicate (100 * 1024 * 1024) 0)) }]) ∧
    ((upload_file "localhost" 8417 "/tmp/a.bin"
        (.file (List.replicate (100 * 1024 * 1024 + 1) 0)) "C:/b.bin" (fun _ => .ok {})).1 = []) :=
  ⟨by rw [List.length_replicate], by rw [List.length_replicate]; omega,
   (upload_size_boundary "localhost" 8417 "/tmp/a.bin" "C:/b.bin" (fun _ => .ok {})
     (List.replicate (100 * 1024 * 1024) 0)).1 (by rw [List.length_replicate]),
   (upload_size_boundary "localhost" 8417 "/tmp/a.bin" "C:/b.bin" (fun _ => .ok {})
     (List.replicate (100 * 1024 * 1024 + 1) 0)).2 (by rw [List.length_replicate]; omega)⟩

/-- C1 (counterexample): for the *empty* local file (size 0 ≤ 100 MiB) the
round trip does not succeed: the upload succeeds, but the download against
the storing agent raises `RuntimeError "Download failed: No file content
received"` and performs no filesystem write, so no byte-identical new local
file exists. -/
theorem empty_file_roundTrip_fails :
    (roundTrip "localhost" 8417 [] "a.bin" "C:/r.bin" "b.bin" "" true).1.2 = .ok true ∧
    (roundTrip "localhost" 8417 [] "a.bin" "C:/r.bin" "b.bin" "" true).2 =
      ([{ action := "file_download", path := some "C:/r.bin" }], [],
        .error (.runtimeError "Download failed: No file content received")) := by
  constructor
  · decide
  · decide

/-- C1 (amended): for every *nonempty* local file of at most 100 MiB,
`upload_file` followed by `download_file` against an agent that stores the
base64-decoded upload content and returns it base64-encoded succeeds, and
the bytes written to the new local path are exactly the original file
content. -/
theorem nonempty_file_roundTrip (host : String) (port : Nat) (content : List Nat)
    (lp rp nl nld : String) (de : Bool)
    (hne : content ≠ []) (hbytes : ∀ x ∈ content, x < 256)
    (hsize : content.length ≤ 100 * 1024 * 1024) :
    (roundTrip host port content lp rp nl nld de).1.2 = .ok true ∧
    (roundTrip host port content lp rp nl nld de).2.2.2 = .ok true ∧
    (roundTrip host port content lp rp nl nld de).2.2.1 =
      (if nld ≠ "" && !de then [FsAction.makedirs nld] else [])
        ++ [FsAction.writeFile nl content] := by
  have hgt : ¬ content.length > 100 * 1024 * 1024 := by omega
  have hup : upload_file host port lp (.file content) rp
      (fun _ => .ok { success := some true }) =
      ([{ action := "file_upload", path := some rp, content := some (b64encode content) }],
        .ok true) := by
    simp [upload_file, hgt, make_request]
  have hstored : agentStore (upload_file host port lp (.file content) rp
      (fun _ => .ok { success := some true })).1 = content := by
    rw [hup]
    simpa [agentStore] using b64decode_b64encode content hbytes
  have henc : b64encode content ≠ "" := b64encode_ne_empty content hne
  have hdown : download_file host port rp nl nld de
      (fun _ => .ok { success := some true, content := some (b64encode content) }) =
      ([{ action := "file_download", path := some rp }],
        (if nld ≠ "" && !de then [FsAction.makedirs nld] else [])
          ++ [FsAction.writeFile nl content], .ok true) := by
    simp [download_file, make_request, henc, b64decode_b64encode content hbytes]
  simp only [roundTrip]
  rw [hstored, hup, hdown]
  exact ⟨rfl, rfl, rfl⟩

/-- Witness for `nonempty_file_roundTrip`: a three-byte file survives the
round trip byte-for-byte. -/
theorem nonempty_file_roundTrip_witness :
    (([77, 97, 110] : List Nat) ≠ [] ∧ (∀ x ∈ ([77, 97, 110] : List Nat), x < 256) ∧
      ([77, 97, 110] : List Nat).length ≤ 100 * 1024 * 1024) ∧
    ((roundTrip "localhost" 8417 [77, 97, 110] "a.bin" "C:/r.bin" "b.bin" "out" false).1.2 =
      .ok true ∧
     (roundTrip "localhost" 8417 [77, 97, 110] "a.bin" "C:/r.bin" "b.bin" "out" false).2.2.2 =
      .ok true ∧
     (roundTrip "localhost" 8417 [77, 97, 110] "a.bin" "C:/r.bin" "b.bin" "out" false).2.2.1 =
      (if "out" ≠ "" && !false then [FsAction.makedirs "out"] else [])
        ++ [FsAction.writeFile "b.bin" [77, 97, 110]]) :=
  ⟨⟨by decide, by decide, by decide⟩,
   nonempty_file_roundTrip "localhost" 8417 [77, 97, 110] "a.bin" "C:/r.bin" "b.bin" "out"
     false (by decide) (by decide) (by decide)⟩

/-- C3: on a `success=true` envelope whose `content` is missing or empty,
`download_file` raises an application error whose message contains "No
file content received" and performs no filesystem action; on a nonempty
`content` it base64-decodes it and writes it to the local path, creating
the parent directory exactly when one is named and missing. -/
theorem download_content_handling (host : String) (port : Nat)
    (rp lp ld : String) (de : Bool) (r : Response) (hs : r.success = some true) :
    (r.content.getD "" = "" →
      download_file host port rp lp ld de (fun _ => .ok r) =
        ([{ action := "file_download", path := some rp }], [],
          .error (.runtimeError "Download failed: No file content received"))) ∧
    (∀ c, r.content = some c → c ≠ "" →
      download_file host port rp lp ld de (fun _ => .ok r) =
        ([{ action := "file_download", path := some rp }],
          (if ld ≠ "" && !de then [FsAction.makedirs ld] else [])
            ++ [FsAction.writeFile lp (b64decode c)], .ok true)) := by
  constructor
  · intro hc
    simp [download_file, make_request, hs, hc]
  · intro c hc hcne
    simp [download_file, make_request, hs, hc, hcne]

/-- Witness for `download_content_handling`: a contentless successful
envelope is an error with no filesystem action; a successful envelope
carrying base64 "TWFu" is decoded and written, creating the missing parent
directory. -/
theorem download_content_handling_witness :
    (({ success := some true } : Response).content.getD "" = "" ∧
      download_file "localhost" 8417 "C:/r.bin" "out/b.bin" "out" false
        (fun _ => .ok { success := some true }) =
        ([{ action := "file_download", path := some "C:/r.bin" }], [],
          .error (.runtimeError "Download failed: No file content received"))) ∧
    (download_file "localhost" 8417 "C:/r.bin" "out/b.bin" "out" false
        (fun _ => .ok { success := some true, content := some "TWFu" }) =
        ([{ action := "file_download", path := some "C:/r.bin" }],
          (if "out" ≠ "" && !false then [FsAction.makedirs "out"] else [])
            ++ [FsAction.writeFile "out/b.bin" (b64decode "TWFu")], .ok true)) :=
  ⟨⟨by decide,
    (download_content_handling "localhost" 8417 "C:/r.bin" "out/b.bin" "out" false
      { success := some true } rfl).1 (by decide)⟩,
   (download_content_handling "localhost" 8417 "C:/r.bin" "out/b.bin" "out" false
      { success := some true, content := some "TWFu" } rfl).2 "TWFu" rfl (by decide)⟩

/-- C6: a `success=false` envelope makes every modelled operation raise an
application-level `RuntimeError` whose message embeds the envelope's error
string, defaulting to "Unknown error" when the `error` field is absent; an
errorless `success=false` envelope therefore yields exactly the message an
envelope with `error="Unknown error"` would. -/
theorem failure_envelope_default_message (host : String) (port : Nat) (r : Response)
    (hf : r.success = some false) :
    (launch_browser host port "https://example.test" (fun _ => .ok r)).2 =
      .error (.runtimeError
        ("Request failed: Server error: " ++ r.error.getD "Unknown error")) ∧
    (start_shell host port (fun _ => .ok r)).2 =
      .error (.runtimeError
        ("Request failed: Server error: " ++ r.error.getD "Unknown error")) ∧
    (send_shell_input host port "dir" (fun _ => .ok r)).2 =
      .error (.runtimeError
        ("Request failed: Server error: " ++ r.error.getD "Unknown error")) ∧
    (get_shell_status host port (fun _ => .ok r)).2 =
      .error (.runtimeError
        ("Request failed: Server error: " ++ r.error.getD "Unknown error")) ∧
    (upload_file host port "a.bin" (.file [77]) "C:/b.bin" (fun _ => .ok r)).2 =
      .error (.runtimeError
        ("Upload failed: Server error: " ++ r.error.getD "Unknown error")) ∧
    (download_file host port "C:/r.bin" "b.bin" "" true (fun _ => .ok r)).2.2 =
      .error (.runtimeError
        ("Download failed: Server error: " ++ r.error.getD "Unknown error")) ∧
    (r.error = none → r.error.getD "Unknown error" = "Unknown error") := by
  have hne : ¬ r.success = some true := by rw [hf]; simp
  have hurl : pyStrip "https://example.test" ≠ "" := by decide
  have hcmd : pyStrip "dir" ≠ "" := by decide
  have hlen : ¬ (([77] : List Nat).length > 100 * 1024 * 1024) := by decide
  refine ⟨?_, ?_, ?_, ?_, ?_, ?_, fun h => by simp [h]⟩
  · simp [launch_browser, make_request, hurl, hne]
  · simp [start_shell, make_request, hne]
  · simp [send_shell_input, make_request, hcmd, hne]
  · simp [get_shell_status, make_request, hne]
  · simp [upload_file, make_request, hlen, hne]
  · simp [download_file, make_request, hne]

/-- Witness for `failure_envelope_default_message` at the errorless
`success=false` envelope. -/
theorem failure_envelope_default_message_witness :
    (({ success := some false } : Response).success = some false) ∧
    ((launch_browser "localhost" 8417 "https://example.test"
        (fun _ => .ok { success := some false })).2 =
      .error (.runtimeError ("Request failed: Server error: " ++
        ({ success := some false } : Response).error.getD "Unknown error"))) ∧
    ((download_file "localhost" 8417 "C:/r.bin" "b.bin" "" true
        (fun _ => .ok { success := some false })).2.2 =
      .error (.runtimeError ("Download failed: Server error: " ++
        ({ success := some false } : Response).error.getD "Unknown error"))) :=
  ⟨rfl,
   (failure_envelope_default_message "localhost" 8417 { success := some false } rfl).1,
   (failure_envelope_default_message "localhost" 8417
     { success := some false } rfl).2.2.2.2.2.1⟩

/-- C9 (counterexample): the remote-rejected failure path of
`launch_browser` yields the message "Request failed: Server error: boom",
which contains neither the target host:port ("localhost:8417") nor the
operation name ("launch_browser") — so not every failure path names
both. -/
theorem server_error_message_lacks_host_and_operation :
    (launch_browser "localhost" 8417 "https://example.test"
        (fun _ => .ok { success := some false, error := some "boom" })).2 =
      .error (.runtimeError "Request failed: Server error: boom") ∧
    occursStr "localhost:8417" "Request failed: Server error: boom" = false ∧
    occursStr "launch_browser" "Request failed: Server error: boom" = false := by
  refine ⟨by decide, by decide, by decide⟩

/-- C9 (amended): only the socket-level connectivity failure message names
the target, as "Unable to connect to {host}:{port}", which contains the
host:port; the invalid-argument and remote-rejected failure paths yield
fixed-form messages ("URL cannot be empty", "Request failed: Server
error: {msg}") naming neither the host:port nor the operation. -/
theorem failure_message_forms (host : String) (port : Nat) (e : String) (r : Response)
    (hf : r.success = some false) :
    (make_request host port (.urlError true e) =
      .error (.connectionError
        ("Unable to connect to " ++ (host ++ ":" ++ toString port)))) ∧
    (occursStr (host ++ ":" ++ toString port)
      ("Unable to connect to " ++ (host ++ ":" ++ toString port)) = true) ∧
    (launch_browser host port "" (fun _ => .ok r) =
      ([], .error (.valueError "URL cannot be empty"))) ∧
    ((launch_browser host port "https://example.test" (fun _ => .ok r)).2 =
      .error (.runtimeError
        ("Request failed: Server error: " ++ r.error.getD "Unknown error"))) := by
  have hne : ¬ r.success = some true := by rw [hf]; simp
  have hurl : pyStrip "https://example.test" ≠ "" := by decide
  refine ⟨?_, occursStr_append_self _ _, ?_, ?_⟩
  · simp [make_request, String.append_assoc]
  · simp [launch_browser]
  · simp [launch_browser, make_request, hurl, hne]

/-- Witness for `failure_message_forms` at concrete host, port and an
error-bearing rejected envelope. -/
theorem failure_message_forms_witness :
    (({ success := some false, error := some "boom" } : Response).success = some false) ∧
    (make_request "localhost" 8417 (.urlError true "timed out") =
      .error (.connectionError
        ("Unable to connect to " ++ ("localhost" ++ ":" ++ toString 8417)))) ∧
    (occursStr ("localhost" ++ ":" ++ toString 8417)
      ("Unable to connect to " ++ ("localhost" ++ ":" ++ toString 8417)) = true) :=
  ⟨rfl,
   (failure_message_forms "localhost" 8417 "timed out"
     { success := some false, error := some "boom" } rfl).1,
   (failure_message_forms "localhost" 8417 "timed out"
     { success := some false, error := some "boom" } rfl).2.1⟩

end RemoteControl
